import Mathlib

/-!
Verification of the weather-forecast CLI (`weatherForecastTool.py`).

The embedding models the pure data-shaping core of the script:
time rounding and the 3-hour forecast offset (`get_current_time`,
`get_time_three_hours_later`, `jump_to_entry`), the categorizers
(`determine_time_of_day`, `determine_humidity`), the dict-cleanup pipeline
(`remove_none_fields`, `remove_empty_fields`, `convert_to_string`,
`format_weather_details`), the forecast-entry selection loop of
`get_forecast_details`, and the sentence assembly of `print_weather_details`.

Python values occurring in the weather-info dictionaries are modelled by
`PyVal` (None, str, int, dict, list); a dictionary is an insertion-ordered
association list.  Python's `datetime.replace` raises `ValueError` on an
out-of-range hour, modelled by `Option`; `int(x / 3)` on an exact small
quotient truncates toward zero, modelled by `Int.tdiv`.
-/

/-- Model of the Python values that flow through the weather-info
dictionaries: `None`, strings, ints, dicts and lists. -/
inductive PyVal where
  | none : PyVal
  | str : String → PyVal
  | int : Int → PyVal
  | dict : List (String × PyVal) → PyVal
  | list : List PyVal → PyVal

/-- A Python dict with string keys, as an insertion-ordered association list. -/
abbrev PyDict := List (String × PyVal)

/-- The decimal digit character for `d < 10`, as Python prints it. -/
def digitChar (d : Nat) : Char := Char.ofNat (48 + d)

/-- Decimal digits of `n` (most significant first) prepended to `acc`,
with explicit fuel so the recursion is structural; `fuel` bounds the
number of digits. -/
def natCharsCore : Nat → Nat → List Char → List Char
  | 0, _, acc => acc
  | fuel + 1, n, acc =>
    if n < 10 then digitChar n :: acc
    else natCharsCore fuel (n / 10) (digitChar (n % 10) :: acc)

/-- Decimal digits of `n`, most significant first; models how Python
prints a natural number (`n + 1` units of fuel always suffice). -/
def natChars (n : Nat) : List Char := natCharsCore (n + 1) n []

/-- Python's `str` of an `int`: decimal digits, with a leading `-` when
negative. -/
def intRepr (n : Int) : String :=
  if n < 0 then String.mk ('-' :: natChars (-n).toNat)
  else String.mk (natChars n.toNat)

mutual
/-- Python's `repr` of a `PyVal` (as used by `str` on containers):
`None`, quoted strings, decimal ints, brace/bracket-delimited
containers with `", "`-separated entries. -/
def pyRepr : PyVal → String
  | .none => "None"
  | .str s => "\x27" ++ s ++ "\x27"
  | .int n => intRepr n
  | .dict d => "\x7b" ++ pyReprDict d ++ "\x7d"
  | .list l => "[" ++ pyReprList l ++ "]"

/-- Comma-separated `repr` of the entries of a dict. -/
def pyReprDict : List (String × PyVal) → String
  | [] => ""
  | [(k, v)] => "\x27" ++ k ++ "\x27: " ++ pyRepr v
  | (k, v) :: rest => "\x27" ++ k ++ "\x27: " ++ pyRepr v ++ ", " ++ pyReprDict rest

/-- Comma-separated `repr` of the elements of a list. -/
def pyReprList : List PyVal → String
  | [] => ""
  | [v] => pyRepr v
  | v :: rest => pyRepr v ++ ", " ++ pyReprList rest
end

/-- Python's `str` of a `PyVal`: a string is itself, anything else is its
`repr`. -/
def pyStr : PyVal → String
  | .str s => s
  | v => pyRepr v

/-- The test `value == None or value == 'None'` of `remove_none_fields`
(Python cross-type `==` is false, so only `None` itself and the literal
string `"None"` match). -/
def isNoneLike : PyVal → Bool
  | .none => true
  | .str s => s == "None"
  | _ => false

/-- The test `value == '' or value == {} or value == []` of
`remove_empty_fields` (in Python `{} == []` is false, so each form only
matches its own type). -/
def isEmptyLike : PyVal → Bool
  | .str s => s == ""
  | .dict d => d.isEmpty
  | .list l => l.isEmpty
  | _ => false

/-- `remove_none_fields`: `None` input yields `{}`; otherwise every key
whose value is `None` or `'None'` is deleted (iteration over a copy while
deleting from the original is a filter that preserves order). -/
def remove_none_fields : Option PyDict → PyDict
  | Option.none => []
  | Option.some d => d.filter (fun kv => !isNoneLike kv.2)

/-- `remove_empty_fields`: every key whose value is `''`, `{}` or `[]` is
deleted. -/
def remove_empty_fields (d : PyDict) : PyDict :=
  d.filter (fun kv => !isEmptyLike kv.2)

/-- The per-value step of `convert_to_string`: a value that is not a
string (`isinstance(value, str)` fails) is replaced by `str(value)`. -/
def pyToStrVal : PyVal → PyVal
  | .str s => .str s
  | v => .str (pyStr v)

/-- `convert_to_string`: every non-string value is replaced by its string
representation, keys and order unchanged. -/
def convert_to_string (d : PyDict) : PyDict :=
  d.map (fun kv => (kv.1, pyToStrVal kv.2))

/-- `format_weather_details`: `remove_none_fields`, then
`remove_empty_fields`, then `convert_to_string`. -/
def format_weather_details (d : Option PyDict) : PyDict :=
  convert_to_string (remove_empty_fields (remove_none_fields d))

/-- `determine_time_of_day`: Morning on [6,12), Afternoon on [12,18),
Evening on [18,24); anything else falls through and Python returns `None`. -/
def determine_time_of_day (reference_time : Nat) : Option String :=
  if 6 ≤ reference_time ∧ reference_time < 12 then some "Morning"
  else if 12 ≤ reference_time ∧ reference_time < 18 then some "Afternoon"
  else if 18 ≤ reference_time ∧ reference_time < 24 then some "Evening"
  else Option.none

/-- `determine_humidity`: `low` below 30, `medium` on [30,60), `high`
otherwise. -/
def determine_humidity (humidity : Int) : String :=
  if humidity < 30 then "low"
  else if 30 ≤ humidity ∧ humidity < 60 then "medium"
  else "high"

/-- A wall-clock time of day, the part of a Python `datetime` the script
manipulates (the date is never changed). -/
structure SimpleTime where
  hour : Nat
  minute : Nat
  second : Nat
deriving DecidableEq, Repr

/-- `datetime.replace(hour=h, minute=0, second=0, microsecond=0)`:
raises `ValueError` (here `Option.none`) unless `h` is in 0..23. -/
def replace_hms0 (h : Nat) : Option SimpleTime :=
  if h ≤ 23 then some ⟨h, 0, 0⟩ else Option.none

/-- `datetime.replace(hour=h)` keeping the other fields: raises
`ValueError` (here `Option.none`) unless `h` is in 0..23. -/
def replace_hour (t : SimpleTime) (h : Nat) : Option SimpleTime :=
  if h ≤ 23 then some { t with hour := h } else Option.none

/-- `get_current_time`: round the wall clock to the nearest hour
(minute ≥ 30 rounds up) and zero minutes and seconds.  When the rounded
hour is 24 (now = 23:30 or later) `datetime.replace` raises `ValueError`. -/
def get_current_time (now : SimpleTime) : Option SimpleTime :=
  let curr_hour := if now.minute ≥ 30 then now.hour + 1 else now.hour
  replace_hms0 curr_hour

/-- `get_time_three_hours_later`: `curr_time.replace(hour=curr_time.hour+3)`;
the addition is unchecked, so a rounded hour of 21 or later makes
`datetime.replace` raise `ValueError`. -/
def get_time_three_hours_later (now : SimpleTime) : Option SimpleTime :=
  (get_current_time now).bind (fun t => replace_hour t (t.hour + 3))

/-- `jump_to_entry`: the hour three (rounded) hours from now, paired with
`int((hour3 - 9) / 3)`.  Python's `int` of a true-division quotient
truncates toward zero, which is `Int.tdiv`. -/
def jump_to_entry (now : SimpleTime) : Option (Nat × Int) :=
  (get_time_three_hours_later now).map
    (fun t => (t.hour, Int.tdiv ((t.hour : Int) - 9) 3))

/-- One sample of the forecast series (`forecast.weathers`), reduced to
the fields `get_forecast_details` reads. -/
structure ForecastSample where
  status : String
  detailed_status : String
deriving DecidableEq, Repr

/-- The selection loop of `get_forecast_details`: walk the forecast
samples decrementing a counter, breaking when it is 0; the loop variable
keeps the last visited sample when the sequence runs out, and is unbound
(`Option.none`, a Python `NameError`) on an empty sequence. -/
def select_forecast_sample : Int → List ForecastSample → Option ForecastSample
  | _, [] => Option.none
  | k, x :: xs =>
    if k = 0 then some x
    else
      match xs with
      | [] => some x
      | y :: ys => select_forecast_sample (k - 1) (y :: ys)

/-- The record `get_forecast_details` builds from a forecast. -/
structure ForecastInfo where
  status : String
  detailed_status : String
  reftime : Nat
deriving DecidableEq, Repr

/-- `get_forecast_details`: compute `jump_to_entry`, walk the forecast
samples with the selection loop, and package the selected sample with the
future hour. -/
def get_forecast_details (now : SimpleTime) (weathers : List ForecastSample) :
    Option ForecastInfo :=
  (jump_to_entry now).bind (fun p =>
    (select_forecast_sample p.2 weathers).map (fun w =>
      { status := w.status, detailed_status := w.detailed_status, reftime := p.1 }))

/-- The first sentence template of `print_weather_details` (all weather
fields have been stringified by `format_weather_details`). -/
def print_stmt_curr (city time_of_day curr_time detailed_status humidity
    humidity_level temp_min temp_max feels_like : String) : String :=
  "Good " ++ time_of_day ++ "!! It is " ++ curr_time ++ " hours in " ++ city ++
    ", and we have " ++ detailed_status ++ " with " ++ humidity ++ "% " ++
    humidity_level ++ " humidity. The temperature ranges between " ++ temp_min ++
    " and " ++ temp_max ++ " degrees Celsius but it may feel like " ++ feels_like ++
    " degrees Celsius."

/-- The second sentence template of `print_weather_details`; `reftime` is
the integer hour from `jump_to_entry`, stringified by the f-string. -/
def print_stmt_future (fut_time : Nat) (fut_detailed_status : String) : String :=
  "At around " ++ intRepr (fut_time : Int) ++ " hours, we might have " ++
    fut_detailed_status ++ "."

/-- The rain sentence: umbrella warning when rain is predicted, otherwise
the clear-skies remark. -/
def print_stmt_rain (rain : Bool) : String :=
  if rain then "Carry an umbrella as there might be some rain tomorrow."
  else "We are expecting clear skies tomorrow.Don\x27t miss your shades!!"

/-- The fog sentence: present when fog is predicted, otherwise the empty
string. -/
def print_stmt_fog (fog : Bool) : String :=
  if fog then "Also, it might be foggy the next few days." else ""

/-- The full text printed by `print_weather_details`: the four sentences
joined with newlines. -/
def print_weather_details (city time_of_day curr_time detailed_status humidity
    humidity_level temp_min temp_max feels_like : String) (fut_time : Nat)
    (fut_detailed_status : String) (rain fog : Bool) : String :=
  print_stmt_curr city time_of_day curr_time detailed_status humidity
      humidity_level temp_min temp_max feels_like ++ "\n" ++
    print_stmt_future fut_time fut_detailed_status ++ "\n" ++
    print_stmt_rain rain ++ "\n" ++
    print_stmt_fog fog

/-- Helper: `isNoneLike` is false exactly on values that are neither `None`
nor the string `"None"`. -/
theorem isNoneLike_eq_false (v : PyVal) :
    isNoneLike v = false ↔ v ≠ PyVal.none ∧ v ≠ PyVal.str "None" := by
  cases v <;> simp [isNoneLike]

/-- Claim C2: `determine_humidity` is total over the integers and returns
`low` for h < 30, `medium` for 30 ≤ h < 60 and `high` for h ≥ 60; the
boundary values 29, 30, 59, 60 land in low, medium, medium, high. -/
theorem determine_humidity_bands :
    (∀ h : Int, (h < 30 → determine_humidity h = "low") ∧
      (30 ≤ h → h < 60 → determine_humidity h = "medium") ∧
      (60 ≤ h → determine_humidity h = "high")) ∧
    determine_humidity 29 = "low" ∧ determine_humidity 30 = "medium" ∧
    determine_humidity 59 = "medium" ∧ determine_humidity 60 = "high" := by
  refine ⟨fun h => ⟨fun h1 => ?_, fun h1 h2 => ?_, fun h1 => ?_⟩, rfl, rfl, rfl, rfl⟩
  · rw [determine_humidity, if_pos h1]
  · rw [determine_humidity, if_neg (by omega), if_pos ⟨h1, h2⟩]
  · rw [determine_humidity, if_neg (by omega), if_neg (by omega)]

/-- Witness for C2: the three bands evaluated at 10, 45 and 80. -/
theorem determine_humidity_bands_witness :
    determine_humidity 10 = "low" ∧ determine_humidity 45 = "medium" ∧
    determine_humidity 80 = "high" :=
  ⟨(determine_humidity_bands.1 10).1 (by norm_num),
   (determine_humidity_bands.1 45).2.1 (by norm_num) (by norm_num),
   (determine_humidity_bands.1 80).2.2 (by norm_num)⟩

/-- Claim C5: `determine_time_of_day` maps [6,12) to Morning, [12,18) to
Afternoon, [18,24) to Evening, and hours 0 through 5 fall through to no
value. -/
theorem determine_time_of_day_buckets (h : Nat) :
    (6 ≤ h → h < 12 → determine_time_of_day h = some "Morning") ∧
    (12 ≤ h → h < 18 → determine_time_of_day h = some "Afternoon") ∧
    (18 ≤ h → h < 24 → determine_time_of_day h = some "Evening") ∧
    (h < 6 → determine_time_of_day h = Option.none) := by
  refine ⟨fun h1 h2 => ?_, fun h1 h2 => ?_, fun h1 h2 => ?_, fun h1 => ?_⟩
  · rw [determine_time_of_day, if_pos ⟨h1, h2⟩]
  · rw [determine_time_of_day, if_neg (by omega), if_pos ⟨h1, h2⟩]
  · rw [determine_time_of_day, if_neg (by omega), if_neg (by omega), if_pos ⟨h1, h2⟩]
  · rw [determine_time_of_day, if_neg (by omega), if_neg (by omega), if_neg (by omega)]

/-- Witness for C5: the documented sample hours 6, 11, 12, 17, 18, 23
and a fall-through hour 3. -/
theorem determine_time_of_day_buckets_witness :
    determine_time_of_day 6 = some "Morning" ∧
    determine_time_of_day 11 = some "Morning" ∧
    determine_time_of_day 12 = some "Afternoon" ∧
    determine_time_of_day 17 = some "Afternoon" ∧
    determine_time_of_day 18 = some "Evening" ∧
    determine_time_of_day 23 = some "Evening" ∧
    determine_time_of_day 3 = Option.none :=
  ⟨(determine_time_of_day_buckets 6).1 (by norm_num) (by norm_num),
   (determine_time_of_day_buckets 11).1 (by norm_num) (by norm_num),
   (determine_time_of_day_buckets 12).2.1 (by norm_num) (by norm_num),
   (determine_time_of_day_buckets 17).2.1 (by norm_num) (by norm_num),
   (determine_time_of_day_buckets 18).2.2.1 (by norm_num) (by norm_num),
   (determine_time_of_day_buckets 23).2.2.1 (by norm_num) (by norm_num),
   (determine_time_of_day_buckets 3).2.2.2 (by norm_num)⟩

/-- Claim C10: `remove_none_fields` maps a `None` input to the empty dict,
and on a dict keeps exactly the pairs whose value is neither `None` nor
the string `"None"`, in their original order. -/
theorem remove_none_fields_spec :
    remove_none_fields Option.none = [] ∧
    ∀ (d : PyDict) (k : String) (v : PyVal),
      ((k, v) ∈ remove_none_fields (some d) ↔
        (k, v) ∈ d ∧ v ≠ PyVal.none ∧ v ≠ PyVal.str "None") ∧
      (remove_none_fields (some d)).Sublist d := by
  refine ⟨rfl, fun d k v => ⟨?_, List.filter_sublist d⟩⟩
  rw [remove_none_fields, List.mem_filter, Bool.not_eq_true']
  rw [show ((k, v).2 : PyVal) = v from rfl, isNoneLike_eq_false]

/-- Witness for C10: a pair with a non-`None` value survives the filter. -/
theorem remove_none_fields_spec_witness :
    ("g", PyVal.str "x") ∈
      remove_none_fields (some [("e", PyVal.str "None"), ("g", PyVal.str "x")]) :=
  ((remove_none_fields_spec.2 [("e", PyVal.str "None"), ("g", PyVal.str "x")]
      "g" (PyVal.str "x")).1).mpr ⟨by simp, by simp, by simp⟩

/-- Claim C3: `format_weather_details` removes null-like fields, then
empty fields, then stringifies; on the documented mixed dict it returns
exactly the two surviving stringified pairs. -/
theorem format_weather_details_example :
    (∀ d : Option PyDict, format_weather_details d =
      convert_to_string (remove_empty_fields (remove_none_fields d))) ∧
    format_weather_details (some [("a", PyVal.none), ("b", PyVal.str ""),
      ("c", PyVal.dict []), ("d", PyVal.list []), ("e", PyVal.str "None"),
      ("f", PyVal.int 5), ("g", PyVal.str "x")]) =
    [("f", PyVal.str "5"), ("g", PyVal.str "x")] :=
  ⟨fun _ => rfl, rfl⟩

/-- Counterexample for C7: at 23:45 the rounded hour is 24 and
`datetime.replace` raises `ValueError`, so `get_current_time` does not
return a timestamp for every wall-clock hour and minute. -/
theorem get_current_time_2345_raises :
    get_current_time ⟨23, 45, 0⟩ = Option.none := rfl

/-- Claim C7 (amended): apart from hour 23 with minute ≥ 30, where the
rounded hour 24 makes `datetime.replace` raise `ValueError`,
`get_current_time` returns the rounded hour (minute ≥ 30 rounds up) with
minutes and seconds zero. -/
theorem get_current_time_rounds (now : SimpleTime) (hh : now.hour ≤ 23) :
    (¬(now.hour = 23 ∧ 30 ≤ now.minute) →
      get_current_time now =
        some ⟨if 30 ≤ now.minute then now.hour + 1 else now.hour, 0, 0⟩) ∧
    (now.hour = 23 → 30 ≤ now.minute → get_current_time now = Option.none) := by
  rw [get_current_time, replace_hms0]
  constructor
  · intro hne
    by_cases hm : 30 ≤ now.minute
    · rw [if_pos (show now.minute ≥ 30 from hm), if_pos (by omega)]
    · rw [if_neg (show ¬now.minute ≥ 30 from hm), if_pos (by omega)]
  · intro h23 hm
    rw [if_pos (show now.minute ≥ 30 from hm), if_neg (by omega)]

/-- Witness for C7: 10:29 rounds down to 10:00 and 10:31 rounds up to
11:00. -/
theorem get_current_time_rounds_witness :
    get_current_time ⟨10, 29, 0⟩ = some ⟨10, 0, 0⟩ ∧
    get_current_time ⟨10, 31, 0⟩ = some ⟨11, 0, 0⟩ ∧
    get_current_time ⟨23, 45, 0⟩ = Option.none :=
  ⟨(get_current_time_rounds ⟨10, 29, 0⟩ (by norm_num)).1 (by norm_num),
   (get_current_time_rounds ⟨10, 31, 0⟩ (by norm_num)).1 (by norm_num),
   (get_current_time_rounds ⟨23, 45, 0⟩ (by norm_num)).2 rfl (by norm_num)⟩

/-- Counterexample for C8: at a rounded hour of 21 the claim asserts an
out-of-range hour 24 is returned, but `datetime.replace` raises
`ValueError` instead. -/
theorem get_time_three_hours_later_hour21_raises :
    get_time_three_hours_later ⟨21, 0, 0⟩ = Option.none := rfl

/-- Claim C8 (amended): `get_time_three_hours_later` adds 3 to the rounded
hour with no day-rollover handling; when the rounded hour is 21 or more
the unchecked sum exceeds 23 and `datetime.replace` raises `ValueError`
rather than wrapping or returning an out-of-range hour. -/
theorem get_time_three_hours_later_adds_three (now t : SimpleTime)
    (h : get_current_time now = some t) :
    (t.hour ≤ 20 →
      get_time_three_hours_later now = some ⟨t.hour + 3, t.minute, t.second⟩) ∧
    (21 ≤ t.hour → get_time_three_hours_later now = Option.none) := by
  rw [get_time_three_hours_later, h, Option.some_bind, replace_hour]
  constructor
  · intro h20
    rw [if_pos (by omega)]
  · intro h21
    rw [if_neg (by omega)]

/-- Witness for C8: rounded hour 10 yields 13:00, rounded hour 21 raises. -/
theorem get_time_three_hours_later_adds_three_witness :
    get_time_three_hours_later ⟨10, 0, 0⟩ = some ⟨13, 0, 0⟩ ∧
    get_time_three_hours_later ⟨21, 5, 0⟩ = Option.none :=
  ⟨(get_time_three_hours_later_adds_three ⟨10, 0, 0⟩ ⟨10, 0, 0⟩ rfl).1 (by norm_num),
   (get_time_three_hours_later_adds_three ⟨21, 5, 0⟩ ⟨21, 0, 0⟩ rfl).2 (by norm_num)⟩

/-- Counterexample for C1: for current hour 2 the code returns
`int((5 - 9) / 3) = -1`, not `floor((5 - 9) / 3) = -2`: Python `int`
truncates toward zero. -/
theorem jump_to_entry_hour2_counterexample :
    jump_to_entry ⟨2, 0, 0⟩ = some (5, -1) ∧
    Int.fdiv ((5 : Int) - 9) 3 = -2 ∧ (-1 : Int) ≠ -2 := by
  refine ⟨rfl, by decide, by decide⟩

/-- Claim C1 (amended): `jump_to_entry` returns
`steps = int((hour3 - 9) / 3)`, truncation toward zero, which agrees with
`floor((hour3 - 9) / 3)` whenever `hour3 ≥ 9`; for current hour 2
(`hour3 = 5`) it returns steps = -1. -/
theorem jump_to_entry_steps :
    (∀ (now : SimpleTime) (h3 : Nat) (s : Int),
      jump_to_entry now = some (h3, s) →
        s = Int.tdiv ((h3 : Int) - 9) 3 ∧
        (9 ≤ h3 → s = Int.fdiv ((h3 : Int) - 9) 3)) ∧
    jump_to_entry ⟨2, 0, 0⟩ = some (5, -1) := by
  refine ⟨fun now h3 s h => ?_, rfl⟩
  rw [jump_to_entry] at h
  rcases ho : get_time_three_hours_later now with _ | t
  · rw [ho] at h
    exact absurd h (by simp)
  · rw [ho] at h
    simp only [Option.map_some, Option.map, Option.some.injEq, Prod.mk.injEq] at h
    obtain ⟨h1, h2⟩ := h
    subst h1
    subst h2
    refine ⟨rfl, fun h9 => ?_⟩
    exact (Int.fdiv_eq_tdiv (by omega) (by norm_num)).symm

/-- Witness for C1: current hour 10 gives hour3 = 13 and steps = 1, where
truncation and floor agree. -/
theorem jump_to_entry_steps_witness :
    (1 : Int) = Int.tdiv ((13 : Int) - 9) 3 ∧
    (1 : Int) = Int.fdiv ((13 : Int) - 9) 3 :=
  ⟨(jump_to_entry_steps.1 ⟨10, 0, 0⟩ 13 1 rfl).1,
   (jump_to_entry_steps.1 ⟨10, 0, 0⟩ 13 1 rfl).2 (by norm_num)⟩

/-- Helper: within bounds, the selection loop stops exactly at the 0-based
index given by the counter. -/
theorem select_forecast_sample_get :
    ∀ (l : List ForecastSample) (k : Nat) (h : k < l.length),
      select_forecast_sample (k : Int) l = some (l.get ⟨k, h⟩) := by
  intro l
  induction l with
  | nil =>
    intro k h
    exact absurd h (by simp)
  | cons x xs ih =>
    intro k h
    cases k with
    | zero => cases xs <;> rfl
    | succ k =>
      have hk : k < xs.length := by simpa using h
      cases xs with
      | nil => exact absurd hk (by simp)
      | cons y ys =>
        have hne : ((k + 1 : Nat) : Int) ≠ 0 := by exact_mod_cast Nat.succ_ne_zero k
        have hstep : select_forecast_sample ((k + 1 : Nat) : Int) (x :: y :: ys) =
            select_forecast_sample (((k + 1 : Nat) : Int) - 1) (y :: ys) := by
          rw [select_forecast_sample.eq_def]
          exact if_neg hne
        have hcast : ((k + 1 : Nat) : Int) - 1 = (k : Int) := by push_cast; ring
        rw [hstep, hcast, ih k hk]
        rfl

/-- Claim C6: the selection loop of `get_forecast_details` returns the
first entry when steps = 0 and the 0-based entry `steps` when within
bounds; for current hour 10 (`steps = 1`) it selects index 1. -/
theorem get_forecast_details_selects (k : Nat) (l : List ForecastSample)
    (h : k < l.length) :
    select_forecast_sample (k : Int) l = some (l.get ⟨k, h⟩) ∧
    (∀ (x : ForecastSample) (xs : List ForecastSample),
      select_forecast_sample 0 (x :: xs) = some x) ∧
    (∀ now : SimpleTime, now.hour = 10 → now.minute < 30 →
      jump_to_entry now = some (13, 1)) ∧
    (∀ (w0 w1 : ForecastSample) (rest : List ForecastSample),
      get_forecast_details ⟨10, 0, 0⟩ (w0 :: w1 :: rest) =
        some ⟨w1.status, w1.detailed_status, 13⟩) := by
  refine ⟨select_forecast_sample_get l k h, fun x xs => by cases xs <;> rfl,
    fun now h10 hm => ?_, fun w0 w1 rest => ?_⟩
  · have hc : get_current_time now = some ⟨10, 0, 0⟩ := by
      rw [show get_current_time now =
          replace_hms0 (if now.minute ≥ 30 then now.hour + 1 else now.hour) from rfl]
      rw [if_neg (by omega), h10, replace_hms0, if_pos (by omega)]
    rw [jump_to_entry, get_time_three_hours_later, hc]
    rfl
  · rw [get_forecast_details]
    have h1 : jump_to_entry ⟨10, 0, 0⟩ = some (13, 1) := rfl
    rw [h1, Option.some_bind]
    have h2 : select_forecast_sample (1 : Int) (w0 :: w1 :: rest) = some w1 := by
      have := select_forecast_sample_get (w0 :: w1 :: rest) 1 (by simp)
      simpa using this
    rw [h2]
    rfl

/-- Witness for C6: index 1 of a two-sample forecast is its second sample. -/
theorem get_forecast_details_selects_witness :
    select_forecast_sample (1 : Int)
      [⟨"Clouds", "few clouds"⟩, ⟨"Rain", "light rain"⟩] =
      some ⟨"Rain", "light rain"⟩ :=
  (get_forecast_details_selects 1
    [⟨"Clouds", "few clouds"⟩, ⟨"Rain", "light rain"⟩] (by simp)).1

/-- Claim C9: the printed summary is the four template sentences joined by
newlines; the rain sentence is the umbrella warning exactly when the rain
flag is set and the clear-skies remark otherwise, the fog sentence is
empty exactly when the fog flag is clear, and an absent fog sentence makes
the output end in a newline (a trailing blank line). -/
theorem print_weather_details_assembly (city time_of_day curr_time
    detailed_status humidity humidity_level temp_min temp_max feels_like : String)
    (fut_time : Nat) (fut_detailed_status : String) (rain fog : Bool) :
    print_weather_details city time_of_day curr_time detailed_status humidity
        humidity_level temp_min temp_max feels_like fut_time fut_detailed_status
        rain fog =
      print_stmt_curr city time_of_day curr_time detailed_status humidity
          humidity_level temp_min temp_max feels_like ++ "\n" ++
        print_stmt_future fut_time fut_detailed_status ++ "\n" ++
        print_stmt_rain rain ++ "\n" ++ print_stmt_fog fog ∧
    (print_stmt_rain rain =
      "Carry an umbrella as there might be some rain tomorrow." ↔ rain = true) ∧
    (print_stmt_fog fog = "" ↔ fog = false) ∧
    (fog = false →
      print_weather_details city time_of_day curr_time detailed_status humidity
          humidity_level temp_min temp_max feels_like fut_time fut_detailed_status
          rain fog =
        (print_stmt_curr city time_of_day curr_time detailed_status humidity
            humidity_level temp_min temp_max feels_like ++ "\n" ++
          print_stmt_future fut_time fut_detailed_status ++ "\n" ++
          print_stmt_rain rain) ++ "\n") := by
  refine ⟨rfl, ?_, ?_, ?_⟩
  · cases rain with
    | false => simp only [print_stmt_rain, if_neg Bool.false_ne_true]; decide
    | true => simp [print_stmt_rain]
  · cases fog with
    | false => simp [print_stmt_fog]
    | true => simp only [print_stmt_fog, if_pos rfl]; decide
  · intro hfog
    subst hfog
    rw [print_weather_details, print_stmt_fog, if_neg Bool.false_ne_true,
      String.append_empty]

/-- Helper: with enough fuel the digit printer emits a digit character
first. -/
theorem natCharsCore_head (fuel : Nat) :
    ∀ (n : Nat) (acc : List Char), n < 10 ^ (fuel + 1) →
      ∃ d rest, natCharsCore (fuel + 1) n acc = digitChar d :: rest ∧ d < 10 := by
  induction fuel with
  | zero =>
    intro n acc hn
    have h10 : n < 10 := by norm_num at hn; exact hn
    exact ⟨n, acc, by rw [natCharsCore, if_pos h10], h10⟩
  | succ f ih =>
    intro n acc hn
    by_cases h10 : n < 10
    · exact ⟨n, acc, by rw [natCharsCore, if_pos h10], h10⟩
    · have hdiv : n / 10 < 10 ^ (f + 1) := by
        rw [Nat.div_lt_iff_lt_mul (by norm_num)]
        calc n < 10 ^ (f + 2) := hn
          _ = 10 ^ (f + 1) * 10 := by ring
      obtain ⟨d, rest, heq, hd⟩ := ih (n / 10) (digitChar (n % 10) :: acc) hdiv
      exact ⟨d, rest, by rw [natCharsCore, if_neg h10, heq], hd⟩

/-- Helper: the decimal rendering of a natural number starts with a digit
character. -/
theorem natChars_head (n : Nat) :
    ∃ d rest, natChars n = digitChar d :: rest ∧ d < 10 := by
  apply natCharsCore_head
  calc n < 10 ^ n := Nat.lt_pow_self (by norm_num) n
    _ ≤ 10 ^ (n + 1) := Nat.pow_le_pow_right (by norm_num) (Nat.le_succ n)

/-- Helper: no digit character is the letter `N`. -/
theorem digitChar_ne_N (d : Nat) (h : d < 10) : digitChar d ≠ 'N' := by
  interval_cases d <;> decide

/-- Helper: a string whose first character is not `N` is neither `"None"`
nor empty. -/
theorem head_ne_none_ne_empty (s : String) (c : Char) (rest : List Char)
    (hdata : s.data = c :: rest) (hc : c ≠ 'N') : s ≠ "None" ∧ s ≠ "" := by
  constructor <;> intro h <;> subst h
  · rw [show ("None" : String).data = ['N', 'o', 'n', 'e'] from rfl] at hdata
    exact hc (List.cons_eq_cons.mp hdata.symm).1
  · rw [show ("" : String).data = [] from rfl] at hdata
    exact List.noConfusion hdata

/-- Helper: the decimal rendering of an integer is neither `"None"` nor
empty. -/
theorem intRepr_ne (n : Int) : intRepr n ≠ "None" ∧ intRepr n ≠ "" := by
  rw [intRepr]
  by_cases hneg : n < 0
  · rw [if_pos hneg]
    exact head_ne_none_ne_empty _ '-' (natChars (-n).toNat) rfl (by decide)
  · rw [if_neg hneg]
    obtain ⟨d, rest, heq, hd⟩ := natChars_head n.toNat
    rw [heq]
    exact head_ne_none_ne_empty _ (digitChar d) rest rfl (digitChar_ne_N d hd)

/-- Helper: the `str` image of a value that is neither `None`, the string
`"None"`, nor the empty string, is itself neither `"None"` nor empty. -/
theorem pyStr_survivor_ne (v : PyVal) (h1 : v ≠ PyVal.none)
    (h2 : v ≠ PyVal.str "None") (h3 : v ≠ PyVal.str "") :
    pyStr v ≠ "None" ∧ pyStr v ≠ "" := by
  cases v with
  | none => exact absurd rfl h1
  | str s =>
    refine ⟨fun h => h2 ?_, fun h => h3 ?_⟩ <;> rw [show pyStr (PyVal.str s) = s from rfl] at h <;> rw [h]
  | int n =>
    rw [show pyStr (PyVal.int n) = pyRepr (PyVal.int n) from rfl, pyRepr]
    exact intRepr_ne n
  | dict d =>
    rw [show pyStr (PyVal.dict d) = pyRepr (PyVal.dict d) from rfl, pyRepr]
    exact head_ne_none_ne_empty _ '\x7b' (String.data (pyReprDict d) ++ ['\x7d']) rfl
      (by decide)
  | list l =>
    rw [show pyStr (PyVal.list l) = pyRepr (PyVal.list l) from rfl, pyRepr]
    exact head_ne_none_ne_empty _ '[' (String.data (pyReprList l) ++ [']']) rfl
      (by decide)

/-- Helper: every pair surviving `format_weather_details` carries a string
value that is neither `"None"` nor empty. -/
theorem format_survivor (x : Option PyDict) (kv : String × PyVal)
    (h : kv ∈ format_weather_details x) :
    ∃ s, kv.2 = PyVal.str s ∧ s ≠ "None" ∧ s ≠ "" := by
  rw [format_weather_details, convert_to_string] at h
  obtain ⟨kv0, hmem, heq⟩ := List.mem_map.mp h
  rw [remove_empty_fields] at hmem
  obtain ⟨hmem1, hemp⟩ := List.mem_filter.mp hmem
  rw [Bool.not_eq_true'] at hemp
  have hnone : isNoneLike kv0.2 = false := by
    cases x with
    | none => exact absurd hmem1 (by rw [remove_none_fields]; exact List.not_mem_nil kv0)
    | some d =>
      rw [remove_none_fields] at hmem1
      have := (List.mem_filter.mp hmem1).2
      rwa [Bool.not_eq_true'] at this
  have hv2 : kv.2 = pyToStrVal kv0.2 := by rw [← heq]
  rcases hv0 : kv0.2 with _ | s | n | d | l
  · rw [hv0] at hnone
    simp [isNoneLike] at hnone
  · rw [hv0] at hnone hemp
    rw [show isNoneLike (PyVal.str s) = (s == "None") from rfl] at hnone
    rw [show isEmptyLike (PyVal.str s) = (s == "") from rfl] at hemp
    exact ⟨s, by rw [hv2, hv0]; rfl, beq_eq_false_iff_ne.mp hnone,
      beq_eq_false_iff_ne.mp hemp⟩
  · refine ⟨pyStr (PyVal.int n), by rw [hv2, hv0]; rfl, ?_⟩
    exact pyStr_survivor_ne _ (fun hc => PyVal.noConfusion hc)
      (fun hc => PyVal.noConfusion hc) (fun hc => PyVal.noConfusion hc)
  · refine ⟨pyStr (PyVal.dict d), by rw [hv2, hv0]; rfl, ?_⟩
    exact pyStr_survivor_ne _ (fun hc => PyVal.noConfusion hc)
      (fun hc => PyVal.noConfusion hc) (fun hc => PyVal.noConfusion hc)
  · refine ⟨pyStr (PyVal.list l), by rw [hv2, hv0]; rfl, ?_⟩
    exact pyStr_survivor_ne _ (fun hc => PyVal.noConfusion hc)
      (fun hc => PyVal.noConfusion hc) (fun hc => PyVal.noConfusion hc)

/-- Claim C4: `format_weather_details` is idempotent — applying it to its
own output changes nothing. -/
theorem format_weather_details_idempotent (x : Option PyDict) :
    format_weather_details (some (format_weather_details x)) =
      format_weather_details x := by
  have hsurv := format_survivor x
  have h1 : remove_none_fields (some (format_weather_details x)) =
      format_weather_details x := by
    rw [remove_none_fields]
    apply List.filter_eq_self.mpr
    intro kv hkv
    obtain ⟨s, hs, hN, _⟩ := hsurv kv hkv
    rw [Bool.not_eq_true', hs, isNoneLike, beq_eq_false_iff_ne]
    exact hN
  have h2 : remove_empty_fields (format_weather_details x) =
      format_weather_details x := by
    rw [remove_empty_fields]
    apply List.filter_eq_self.mpr
    intro kv hkv
    obtain ⟨s, hs, _, hE⟩ := hsurv kv hkv
    rw [Bool.not_eq_true', hs, isEmptyLike, beq_eq_false_iff_ne]
    exact hE
  have h3 : convert_to_string (format_weather_details x) =
      format_weather_details x := by
    rw [convert_to_string]
    have hid : ∀ kv ∈ format_weather_details x,
        (fun kv : String × PyVal => (kv.1, pyToStrVal kv.2)) kv = id kv := by
      intro kv hkv
      obtain ⟨s, hs, _, _⟩ := hsurv kv hkv
      show (kv.1, pyToStrVal kv.2) = kv
      rw [hs, pyToStrVal, ← hs]
    rw [List.map_congr_left hid, List.map_id]
  rw [show format_weather_details (some (format_weather_details x)) =
      convert_to_string (remove_empty_fields (remove_none_fields
        (some (format_weather_details x)))) from rfl]
  rw [h1, h2, h3]

/-- Witness for C9: with the fog flag clear the printed text ends in a
newline after the rain sentence. -/
theorem print_weather_details_assembly_witness :
    print_weather_details "Bangalore" "Morning" "10:00" "light rain" "45"
        "medium" "22" "26" "24" 13 "moderate rain" true false =
      (print_stmt_curr "Bangalore" "Morning" "10:00" "light rain" "45"
          "medium" "22" "26" "24" ++ "\n" ++
        print_stmt_future 13 "moderate rain" ++ "\n" ++
        print_stmt_rain true) ++ "\n" :=
  (print_weather_details_assembly "Bangalore" "Morning" "10:00" "light rain"
    "45" "medium" "22" "26" "24" 13 "moderate rain" true false).2.2.2 rfl
